import Mathlib

/-!
Shallow embedding of mylogin/my_print_defaults.py (repository alorenzo175/mylogin).

The module wraps the external tool my_print_defaults: it searches candidate
directories for the tool (get_tool_path), computes the platform login-config
directory (my_login_config_path), and reads option groups by invoking the tool
and parsing its line-oriented output (MyDefaultsReader).

Operating-system services used by the code (os.path.isdir, os.path.isfile,
os.path.normpath, os.path.join, os.name, os.pathsep, os.environ,
os.path.expanduser) are modelled as fields of an explicit OS record, so that
theorems quantify over filesystem and environment states.  Subprocess calls are
modelled by an oracle mapping a group name to the list of stdout lines
(each line as produced by readlines, i.e. normally ending in a newline), and
stateful methods are modelled by explicit state passing; get_group_data
additionally returns the number of subprocess invocations it performed.
-/

/-- Exceptions raised by the embedded code.  The class UtilError comes from
the module mylogin.exception, which is not part of the sources; modelled from
the spec: a typed failure carrying a human-readable message (errmsg).
keyError models the Python KeyError; assertionError models a failed assert
statement. -/
inductive PyErr where
  | utilError : String → PyErr
  | keyError : String → PyErr
  | assertionError : PyErr
deriving DecidableEq

/-- The operating-system interface the code reads: platform name (os.name),
path separator (os.pathsep), the PATH environment variable (os.environ, with
PATH assumed present as the code accesses it unguarded), the optional APPDATA
environment variable, the home directory (os.path.expanduser of the tilde),
and the path predicates and path functions of os.path. -/
structure OS where
  name : String
  pathsep : Char
  environPATH : String
  environAPPDATA : Option String
  homeDir : String
  normpath : String → String
  isdir : String → Bool
  isfile : String → Bool
  join : String → String → String

/-- Python truthiness of an optional string: None and the empty string are
falsy. -/
def truthyOptStr : Option String → Bool
  | none => false
  | some s => !(s == "")

/-- Embedding of _add_basedir: append a basedir and its seven conventional
sub-directories to a list of search paths. -/
def _add_basedir (os : OS) (search_paths : List String) (path_str : String) : List String :=
  search_paths ++ [path_str,
    os.join path_str "sql",
    os.join path_str "client",
    os.join path_str "share",
    os.join path_str "scripts",
    os.join path_str "bin",
    os.join path_str "libexec",
    os.join path_str "mysql"]

/-- The contribution of the basedir argument to the search paths of
get_tool_path: nothing when basedir is None or empty (Python falsiness),
otherwise its _add_basedir expansion. -/
def basedir_contrib (os : OS) (basedir : Option String) : List String :=
  match basedir with
  | none => []
  | some b => if b == "" then [] else _add_basedir os [] b

/-- Core of Python str.split on a one-character separator (os.pathsep is a
single character on both platforms). -/
def pySplitChar (sep : Char) : List Char → List (List Char)
  | [] => [[]]
  | c :: cs =>
    if c == sep then [] :: pySplitChar sep cs
    else
      match pySplitChar sep cs with
      | [] => [[c]]
      | p :: rest => (c :: p) :: rest

/-- Embedding of Python s.split(sep) for a one-character separator. -/
def pySplit (sep : Char) (s : String) : List String :=
  (pySplitChar sep s.data).map String.mk

/-- The contribution of the PATH environment variable to the search paths of
get_tool_path: the PATH entries split on os.pathsep when search_PATH is set,
nothing otherwise. -/
def path_contrib (os : OS) (search_PATH : Bool) : List String :=
  if search_PATH then pySplit os.pathsep os.environPATH else []

/-- The ordered candidate list built by get_tool_path: the basedir expansion,
then either the defaults_paths verbatim (when given and non-empty) or the
_add_basedir expansions of the three built-in fallback bases, then the PATH
entries. -/
def build_search_paths (os : OS) (basedir : Option String)
    (defaults_paths : Option (List String)) (search_PATH : Bool) : List String :=
  let dps := defaults_paths.getD []
  let sp1 := basedir_contrib os basedir
  let sp2 :=
    if !dps.isEmpty then sp1 ++ dps
    else _add_basedir os (_add_basedir os (_add_basedir os sp1 "/usr/local/mysql/") "/usr/sbin/") "/usr/share/"
  sp2 ++ path_contrib os search_PATH

/-- One iteration of the search loop of get_tool_path: normalize the
candidate, skip it unless it is a directory, return the joined tool path if it
is a regular file, with the legacy mysqld-nt.exe fallback. -/
def probe (os : OS) (tool : String) (path : String) : Option String :=
  let norm_path := os.normpath path
  if os.isdir norm_path then
    let toolpath := os.join norm_path tool
    if os.isfile toolpath then some toolpath
    else if tool == "mysqld.exe" then
      let toolpath2 := os.join norm_path "mysqld-nt.exe"
      if os.isfile toolpath2 then some toolpath2 else none
    else none
  else none

/-- The search loop of get_tool_path: first probe hit wins. -/
def findTool (os : OS) (tool : String) : List String → Option String
  | [] => none
  | p :: rest =>
    match probe os tool p with
    | some t => some t
    | none => findTool os tool rest

/-- The effective tool filename searched for: the Windows executable suffix is
appended when os.name is nt and fix_ext is set. -/
def effective_tool (os : OS) (tool : String) (fix_ext : Bool) : String :=
  if os.name == "nt" && fix_ext then tool ++ ".exe" else tool

/-- Embedding of get_tool_path: build the candidate list, fix the tool name on
Windows, scan the candidates in order, and on exhaustion raise UtilError when
required or return None otherwise. -/
def get_tool_path (os : OS) (basedir : Option String) (tool : String)
    (fix_ext : Bool) (required : Bool) (defaults_paths : Option (List String))
    (search_PATH : Bool) : Except PyErr (Option String) :=
  let search_paths := build_search_paths os basedir defaults_paths search_PATH
  let tool2 := effective_tool os tool fix_ext
  match findTool os tool2 search_paths with
  | some toolpath => Except.ok (some toolpath)
  | none =>
    if required then
      Except.error (PyErr.utilError ("Cannot find location of " ++ tool2 ++ "."))
    else
      Except.ok none

/-- Embedding of my_login_config_path: the home directory on posix, otherwise
the APPDATA environment variable suffixed with a backslash and MySQL, raising
KeyError when APPDATA is absent. -/
def my_login_config_path (os : OS) : Except PyErr String :=
  if os.name == "posix" then Except.ok os.homeDir
  else
    match os.environAPPDATA with
    | some appdata => Except.ok (appdata ++ "\\MySQL")
    | none => Except.error (PyErr.keyError "APPDATA")

/-- The value stored for one option: a string for key-equals-value lines, or
the Python boolean True for bare flags. -/
inductive OptVal where
  | str : String → OptVal
  | flag : OptVal
deriving DecidableEq

/-- An option group as stored in the cache: the ordered key-value pairs read
from the tool output.  the Python dict(results) value is modelled by keeping the list
and giving lookups last-binding-wins semantics (dictLookup). -/
abbrev OptionGroup := List (String × OptVal)

/-- Lookup in an association list with Python dict semantics: the last binding
of a key wins. -/
def dictLookup (k : String) : List (String × α) → Option α
  | [] => none
  | (k2, v) :: rest =>
    match dictLookup k rest with
    | some v2 => some v2
    | none => if k2 == k then some v else none

/-- Assignment to a Python dict key, modelled by appending the new binding
(with dictLookup the later binding wins). -/
def dictInsert (d : List (String × α)) (k : String) (v : α) : List (String × α) :=
  d ++ [(k, v)]

/-- Python str.isspace characters stripped by str.strip (ASCII range). -/
def isPySpace (c : Char) : Bool :=
  c == ' ' || c == '\t' || c == '\n' || c == '\r' || c == '\x0b' || c == '\x0c'

/-- Embedding of Python str.strip: drop leading and trailing whitespace. -/
def pyStrip (s : String) : String :=
  String.mk (((s.data.dropWhile isPySpace).reverse.dropWhile isPySpace).reverse)

/-- Core of Python str.split with maxsplit one: the text before the first
separator and, when a separator occurs, the text after it. -/
def pySplit1Core (sep : Char) : List Char → List Char × Option (List Char)
  | [] => ([], none)
  | c :: cs =>
    if c == sep then ([], some cs)
    else
      let r := pySplit1Core sep cs
      (c :: r.1, r.2)

/-- Embedding of Python s.split(sep, 1): one part when the separator is
absent, two parts otherwise. -/
def pySplit1 (sep : Char) (s : String) : List String :=
  match pySplit1Core sep s.data with
  | (pre, none) => [String.mk pre]
  | (pre, some post) => [String.mk pre, String.mk post]

/-- Embedding of the per-line parsing in _read_group_data: ignore the first
two characters, split once on the equals sign; two parts give a key with its
stripped value, one part gives a bare flag, any other shape raises UtilError. -/
def parse_group_line (group : String) (line : String) : Except PyErr (String × OptVal) :=
  let key_value := pySplit1 '=' (line.drop 2)
  if key_value.length == 2 then
    Except.ok (key_value.getD 0 "", OptVal.str (pyStrip (key_value.getD 1 "")))
  else if key_value.length == 1 then
    Except.ok (key_value.getD 0 "", OptVal.flag)
  else
    Except.error (PyErr.utilError
      ("Invalid option value format for group " ++ group ++ ": " ++ line))

/-- The parsing loop of _read_group_data over all output lines, accumulating
the results in order. -/
def parse_group_lines (group : String) : List String → Except PyErr (List (String × OptVal))
  | [] => Except.ok []
  | line :: rest =>
    match parse_group_line group line with
    | Except.error e => Except.error e
    | Except.ok kv =>
      match parse_group_lines group rest with
      | Except.error e => Except.error e
      | Except.ok kvs => Except.ok (kv :: kvs)

/-- The state of a MyDefaultsReader instance: basedir and verbosity from the
options, the discovered tool path, and the per-group cache _config_data
(group name mapped to its option data, or to None when the tool printed no
lines for the group). -/
structure MyDefaultsReader where
  basedir : Option String
  verbosity : Nat
  tool_path : Option String
  config_data : List (String × Option OptionGroup)
deriving DecidableEq

/-- Embedding of MyDefaultsReader._read_group_data: assert the tool path,
invoke the tool (the oracle gives its stdout lines), parse every line, store
the resulting dict (or None when there were no lines) in the cache under the
group name, and return the stored value together with the updated state. -/
def _read_group_data (tool : String → List String) (r : MyDefaultsReader)
    (group : String) : Except PyErr (Option OptionGroup × MyDefaultsReader) :=
  if !(truthyOptStr r.tool_path) then Except.error PyErr.assertionError
  else
    match parse_group_lines group (tool group) with
    | Except.error e => Except.error e
    | Except.ok results =>
      let entry : Option OptionGroup := if results.length != 0 then some results else none
      Except.ok (entry, { r with config_data := dictInsert r.config_data group entry })

/-- Embedding of MyDefaultsReader.get_group_data: return the cached value for
the group when the cache has the key, otherwise read it with the tool.  The
returned number counts the subprocess invocations performed by the call. -/
def get_group_data (tool : String → List String) (r : MyDefaultsReader)
    (group : String) : Except PyErr (Option OptionGroup × MyDefaultsReader × Nat) :=
  match dictLookup group r.config_data with
  | some cached => Except.ok (cached, r, 0)
  | none =>
    match _read_group_data tool r group with
    | Except.ok (v, r2) => Except.ok (v, r2, 1)
    | Except.error e => Except.error e

/-- Embedding of MyDefaultsReader.get_option_value: delegate to
get_group_data; when the group data is truthy (a non-empty dict) look the
option up with default None, otherwise return None. -/
def get_option_value (tool : String → List String) (r : MyDefaultsReader)
    (group : String) (opt_name : String) :
    Except PyErr (Option OptVal × MyDefaultsReader × Nat) :=
  match get_group_data tool r group with
  | Except.error e => Except.error e
  | Except.ok (grp_options, r2, n) =>
    match grp_options with
    | some d => if d.isEmpty then Except.ok (none, r2, n)
                else Except.ok (dictLookup opt_name d, r2, n)
    | none => Except.ok (none, r2, n)

/-- Try to match the regular expression fragment Ver digit dot digit at the
head of the character list. -/
def matchVerAt (l : List Char) : Option (Char × Char) :=
  match l with
  | 'V' :: 'e' :: 'r' :: ' ' :: a :: '.' :: b :: _ =>
    if a.isDigit && b.isDigit then some (a, b) else none
  | _ => none

/-- Embedding of re.search for the pattern Ver digit dot digit: scan left to
right for the first match and return the two digit groups as numbers. -/
def searchVer : List Char → Option (Nat × Nat)
  | [] => none
  | c :: rest =>
    match matchVerAt (c :: rest) with
    | some (a, b) => some (a.toNat - 48, b.toNat - 48)
    | none => searchVer rest

/-- Embedding of MyDefaultsReader.check_tool_version: assert the tool path,
read the first line of the --version output (the oracle gives the stdout
lines), search it for the version pattern, and compare: True when the
requested major is below the tool major, or the majors are equal and the
requested minor is at most the tool minor; UtilError when the pattern is
absent. -/
def check_tool_version (version_out : List String) (r : MyDefaultsReader)
    (major_version minor_version : Int) : Except PyErr Bool :=
  if !(truthyOptStr r.tool_path) then Except.error PyErr.assertionError
  else
    let line := version_out.headD ""
    match searchVer line.data with
    | some (major, minor) =>
      if major_version < (major : Int) ∨
         (major_version = (major : Int) ∧ minor_version ≤ (minor : Int)) then
        Except.ok true
      else
        Except.ok false
    | none =>
      Except.error (PyErr.utilError
        ("Unable to determine tool version - " ++ r.tool_path.getD ""))

/-- The tool searched for by MyDefaultsReader. -/
def _MY_PRINT_DEFAULTS_TOOL : String := "my_print_defaults"

/-- The defaults-paths list built by search_my_print_defaults_tool: the
login-config directory first, then the extra search paths of the caller. -/
def discovery_default_paths (os : OS) (search_paths : Option (List String)) :
    Except PyErr (List String) :=
  let sp := (search_paths.getD [])
  match my_login_config_path os with
  | Except.error e => Except.error e
  | Except.ok cfg => Except.ok ([cfg] ++ sp)

/-- Embedding of MyDefaultsReader.search_my_print_defaults_tool: build the
defaults-paths list, call get_tool_path with the basedir, the tool name,
those paths, and PATH search enabled, store the found path, and on UtilError
re-raise with the remediation message. -/
def search_my_print_defaults_tool (os : OS) (r : MyDefaultsReader)
    (search_paths : Option (List String)) : Except PyErr MyDefaultsReader :=
  match discovery_default_paths os search_paths with
  | Except.error e => Except.error e
  | Except.ok default_paths =>
    match get_tool_path os r.basedir _MY_PRINT_DEFAULTS_TOOL true true
        (some default_paths) true with
    | Except.ok tp => Except.ok { r with tool_path := tp }
    | Except.error (PyErr.utilError msg) =>
      Except.error (PyErr.utilError
        ("Unable to locate MySQL Client tools. Please confirm that the path "
          ++ "to the MySQL client tools are included in the PATH. Error: " ++ msg))
    | Except.error e => Except.error e

/-- A concrete POSIX environment used to evaluate the theorems on explicit
inputs: identity normalization, slash joining, and an empty filesystem. -/
def posixOS : OS where
  name := "posix"
  pathsep := ':'
  environPATH := "/usr/bin:/bin"
  environAPPDATA := none
  homeDir := "/home/user"
  normpath := fun s => s
  isdir := fun _ => false
  isfile := fun _ => false
  join := fun a b => a ++ "/" ++ b

/-- A concrete Windows-like environment with APPDATA set. -/
def ntAppdataOS : OS where
  name := "nt"
  pathsep := ';'
  environPATH := ""
  environAPPDATA := some "C:\\Users\\u\\AppData\\Roaming"
  homeDir := "C:\\Users\\u"
  normpath := fun s => s
  isdir := fun _ => false
  isfile := fun _ => false
  join := fun a b => a ++ "\\" ++ b

/-- A concrete Windows-like environment with APPDATA absent. -/
def ntNoAppdataOS : OS where
  name := "nt"
  pathsep := ';'
  environPATH := ""
  environAPPDATA := none
  homeDir := "C:\\Users\\u"
  normpath := fun s => s
  isdir := fun _ => false
  isfile := fun _ => false
  join := fun a b => a ++ "\\" ++ b

/-- A POSIX environment whose filesystem contains the tool mytool only in the
directory d2: the second candidate of a two-candidate search. -/
def secondHitOS : OS where
  name := "posix"
  pathsep := ':'
  environPATH := "/usr/bin:/bin"
  environAPPDATA := none
  homeDir := "/home/user"
  normpath := fun s => s
  isdir := fun s => s == "d2"
  isfile := fun s => s == "d2/mytool"
  join := fun a b => a ++ "/" ++ b

/-- A POSIX environment in which the built-in fallback base /usr/local/mysql/
is a directory holding the tool: used to show the fallbacks are probed when
defaults_paths is supplied as the empty list. -/
def fallbackOS : OS where
  name := "posix"
  pathsep := ':'
  environPATH := "/usr/bin:/bin"
  environAPPDATA := none
  homeDir := "/home/user"
  normpath := fun s => s
  isdir := fun s => s == "/usr/local/mysql/"
  isfile := fun s => s == "/usr/local/mysql//my_print_defaults"
  join := fun a b => a ++ "/" ++ b

/-- A reader state with a discovered tool path and an empty cache. -/
def readerT : MyDefaultsReader where
  basedir := none
  verbosity := 0
  tool_path := some "/usr/bin/my_print_defaults"
  config_data := []

/-- A tool oracle that prints nothing for every group. -/
def emptyTool : String → List String := fun _ => []

/-- A tool oracle whose output is the single malformed line garbage. -/
def garbageTool : String → List String := fun _ => ["garbage\n"]

/-- The synthetic round-trip output of the spec: user equals root, an empty
password value, and a bare flag, each line ending in a newline. -/
def roundTripTool : String → List String :=
  fun _ => ["--user=root\n", "--password=\n", "--flag\n"]

/-- The group data the code actually computes for the round-trip output. -/
def roundTripGroup : OptionGroup :=
  [("user", OptVal.str "root"), ("password", OptVal.str ""), ("flag\n", OptVal.flag)]

theorem pySplit1_length (sep : Char) (s : String) :
    (pySplit1 sep s).length = 1 ∨ (pySplit1 sep s).length = 2 := by
  unfold pySplit1
  rcases pySplit1Core sep s.data with ⟨pre, _ | post⟩
  · exact Or.inl rfl
  · exact Or.inr rfl

theorem pySplit1Core_not_mem (sep : Char) (l : List Char) (h : sep ∉ l) :
    pySplit1Core sep l = (l, none) := by
  induction l with
  | nil => rfl
  | cons c cs ih =>
    rw [List.mem_cons, not_or] at h
    have hc : (c == sep) = false := by
      simp only [beq_eq_false_iff_ne, ne_eq]
      exact fun e => h.1 e.symm
    simp [pySplit1Core, hc, ih h.2]

theorem parse_group_line_isOk (group line : String) :
    ∃ kv, parse_group_line group line = Except.ok kv := by
  unfold parse_group_line pySplit1
  rcases pySplit1Core '=' (line.drop 2).data with ⟨pre, _ | post⟩
  · exact ⟨_, rfl⟩
  · exact ⟨_, rfl⟩

theorem parse_group_lines_isOk (group : String) (lines : List String) :
    ∃ res, parse_group_lines group lines = Except.ok res := by
  induction lines with
  | nil => exact ⟨[], rfl⟩
  | cons line rest ih =>
    obtain ⟨kv, hkv⟩ := parse_group_line_isOk group line
    obtain ⟨res, hres⟩ := ih
    exact ⟨kv :: res, by simp [parse_group_lines, hkv, hres]⟩

theorem dictLookup_dictInsert (k : String) (v : α) (d : List (String × α)) :
    dictLookup k (dictInsert d k v) = some v := by
  unfold dictInsert
  induction d with
  | nil => simp [dictLookup]
  | cons p rest ih =>
    obtain ⟨k2, v2⟩ := p
    simp [dictLookup, ih]

theorem findTool_append_of_none (os : OS) (tool : String) (l1 l2 : List String)
    (h : ∀ p ∈ l1, probe os tool p = none) :
    findTool os tool (l1 ++ l2) = findTool os tool l2 := by
  induction l1 with
  | nil => rfl
  | cons p rest ih =>
    rw [List.cons_append]
    have hp := h p (List.mem_cons_self p rest)
    simp only [findTool, hp]
    exact ih fun q hq => h q (List.mem_cons_of_mem p hq)

theorem findTool_eq_none (os : OS) (tool : String) (l : List String)
    (h : ∀ p ∈ l, probe os tool p = none) : findTool os tool l = none := by
  have h2 := findTool_append_of_none os tool l [] h
  rw [List.append_nil] at h2
  exact h2

theorem probe_hit (os : OS) (tool : String) (d : String)
    (hdir : os.isdir (os.normpath d) = true)
    (hfile : os.isfile (os.join (os.normpath d) tool) = true) :
    probe os tool d = some (os.join (os.normpath d) tool) := by
  simp [probe, hdir, hfile]

theorem _add_basedir_eq_append (os : OS) (l : List String) (b : String) :
    _add_basedir os l b = l ++ _add_basedir os [] b := by
  simp [_add_basedir]

theorem build_search_paths_nonempty_dp (os : OS) (basedir : Option String)
    (dp : List String) (sp : Bool) (h : dp ≠ []) :
    build_search_paths os basedir (some dp) sp =
      basedir_contrib os basedir ++ dp ++ path_contrib os sp := by
  cases dp with
  | nil => exact absurd rfl h
  | cons a l => simp [build_search_paths, List.append_assoc]

theorem build_search_paths_no_dp (os : OS) (basedir : Option String) (sp : Bool) :
    build_search_paths os basedir none sp =
      basedir_contrib os basedir ++
        (_add_basedir os [] "/usr/local/mysql/" ++ _add_basedir os [] "/usr/sbin/"
          ++ _add_basedir os [] "/usr/share/") ++ path_contrib os sp := by
  simp [build_search_paths, _add_basedir, List.append_assoc]

/-- C9: the Invalid option value format branch of _read_group_data is
unreachable.  For every string, stripping the first two characters and
splitting once on the equals sign yields exactly one or two parts, so the
per-line parser of group data is total: it succeeds on every line of every
group, whatever the tool printed. -/
theorem c9_parse_error_unreachable (s group line : String) :
    ((pySplit1 '=' (s.drop 2)).length = 1 ∨ (pySplit1 '=' (s.drop 2)).length = 2)
    ∧ (parse_group_line group line).isOk = true := by
  refine ⟨pySplit1_length '=' (s.drop 2), ?_⟩
  obtain ⟨kv, hkv⟩ := parse_group_line_isOk group line
  rw [hkv]
  rfl

/-- C8: my_login_config_path returns the home directory when os.name is
posix; on any other platform it returns the APPDATA environment variable
suffixed with backslash MySQL, and raises KeyError on APPDATA when that
variable is absent. -/
theorem c8_config_path (os : OS) :
    (os.name = "posix" → my_login_config_path os = Except.ok os.homeDir)
    ∧ (os.name ≠ "posix" →
        (∀ v, os.environAPPDATA = some v →
          my_login_config_path os = Except.ok (v ++ "\\MySQL"))
        ∧ (os.environAPPDATA = none →
          my_login_config_path os = Except.error (PyErr.keyError "APPDATA"))) := by
  refine ⟨fun h => ?_, fun h => ⟨fun v hv => ?_, fun hv => ?_⟩⟩
  · simp [my_login_config_path, h]
  · simp [my_login_config_path, beq_iff_eq, h, hv]
  · simp [my_login_config_path, beq_iff_eq, h, hv]

/-- Witness for C8 at concrete platforms: the POSIX home directory, the
Windows APPDATA suffix, and the KeyError when APPDATA is unset. -/
theorem c8_config_path_witness :
    my_login_config_path posixOS = Except.ok "/home/user"
    ∧ my_login_config_path ntAppdataOS = Except.ok "C:\\Users\\u\\AppData\\Roaming\\MySQL"
    ∧ my_login_config_path ntNoAppdataOS = Except.error (PyErr.keyError "APPDATA") :=
  ⟨(c8_config_path posixOS).1 rfl,
   (((c8_config_path ntAppdataOS).2 (by decide)).1 "C:\\Users\\u\\AppData\\Roaming" rfl).trans (by rfl),
   ((c8_config_path ntNoAppdataOS).2 (by decide)).2 rfl⟩

/-- C7: when no candidate directory yields the tool, get_tool_path with
required raises UtilError with a message naming the tool, and without
required returns None instead of an error. -/
theorem c7_not_found (os : OS) (basedir : Option String) (tool : String)
    (fix_ext : Bool) (dp : Option (List String)) (sp : Bool)
    (h : ∀ p ∈ build_search_paths os basedir dp sp,
      probe os (effective_tool os tool fix_ext) p = none) :
    get_tool_path os basedir tool fix_ext true dp sp =
      Except.error (PyErr.utilError
        ("Cannot find location of " ++ effective_tool os tool fix_ext ++ "."))
    ∧ get_tool_path os basedir tool fix_ext false dp sp = Except.ok none := by
  have hnone := findTool_eq_none os (effective_tool os tool fix_ext) _ h
  constructor <;> simp [get_tool_path, hnone]

/-- Witness for C7 on an empty filesystem with a single candidate. -/
theorem c7_not_found_witness :
    get_tool_path posixOS none "my_print_defaults" true true (some ["/etc"]) false =
      Except.error (PyErr.utilError "Cannot find location of my_print_defaults.")
    ∧ get_tool_path posixOS none "my_print_defaults" true false (some ["/etc"]) false =
      Except.ok none := by
  have h := c7_not_found posixOS none "my_print_defaults" true (some ["/etc"]) false
    (by decide)
  exact ⟨h.1.trans (by rfl), h.2⟩

/-- C4 counterexample: defaults_paths supplied as the empty list still sends
get_tool_path into the built-in fallback branch, so the fallback base
/usr/local/mysql/ appears in the candidate list, is probed, and here even
wins the search. -/
theorem c4_counterexample :
    ("/usr/local/mysql/" ∈ build_search_paths fallbackOS none (some []) false)
    ∧ get_tool_path fallbackOS none "my_print_defaults" true true (some []) false =
      Except.ok (some "/usr/local/mysql//my_print_defaults") := by
  constructor
  · decide
  · rfl

/-- C4 amended: when defaults_paths is supplied and non-empty, the candidate
list is exactly the basedir contribution, then the supplied paths verbatim,
then the PATH contribution — the built-in fallback branch contributes
nothing; when defaults_paths is absent, the _add_basedir expansions of
exactly the three fallback bases are appended between the basedir
contribution and the PATH contribution; a supplied empty list behaves like
an absent one. -/
theorem c4_amended (os : OS) (basedir : Option String) (dp : List String)
    (sp : Bool) (h : dp ≠ []) :
    build_search_paths os basedir (some dp) sp =
      basedir_contrib os basedir ++ dp ++ path_contrib os sp
    ∧ build_search_paths os basedir none sp =
      basedir_contrib os basedir ++
        (_add_basedir os [] "/usr/local/mysql/" ++ _add_basedir os [] "/usr/sbin/"
          ++ _add_basedir os [] "/usr/share/") ++ path_contrib os sp
    ∧ build_search_paths os basedir (some []) sp = build_search_paths os basedir none sp :=
  ⟨build_search_paths_nonempty_dp os basedir dp sp h,
   build_search_paths_no_dp os basedir sp, rfl⟩

/-- Witness for C4 amended on concrete arguments. -/
theorem c4_amended_witness :
    build_search_paths posixOS none (some ["/opt"]) false = ["/opt"] :=
  ((c4_amended posixOS none ["/opt"] false (by decide)).1).trans (by decide)

/-- C10: the defaults-paths list built by the tool discovery of a
DefaultsReader is the login-config directory followed by the extra paths of the
caller, hence non-empty with the config directory first; therefore the
candidate list of the resulting get_tool_path call is the basedir
contribution, those paths, and the PATH entries — the built-in fallback
branch contributes nothing, for every basedir and extra search paths. -/
theorem c10_discovery_no_fallback (os : OS) (search_paths : Option (List String))
    (cfg : String) (dpl : List String)
    (hcfg : my_login_config_path os = Except.ok cfg)
    (hd : discovery_default_paths os search_paths = Except.ok dpl) :
    dpl = cfg :: search_paths.getD []
    ∧ dpl.head? = some cfg ∧ dpl ≠ []
    ∧ ∀ basedir, build_search_paths os basedir (some dpl) true =
        basedir_contrib os basedir ++ dpl ++ path_contrib os true := by
  have hdpl : dpl = cfg :: search_paths.getD [] := by
    unfold discovery_default_paths at hd
    rw [hcfg] at hd
    simpa using hd.symm
  subst hdpl
  refine ⟨rfl, rfl, by simp, fun basedir => ?_⟩
  exact build_search_paths_nonempty_dp os basedir _ true (by simp)

/-- Witness for C10 at a concrete environment and extra path. -/
theorem c10_discovery_no_fallback_witness :
    build_search_paths posixOS none (some ["/home/user", "/extra"]) true =
      ["/home/user", "/extra", "/usr/bin", "/bin"] := by
  have h := c10_discovery_no_fallback posixOS (some ["/extra"]) "/home/user"
    ["/home/user", "/extra"] rfl rfl
  exact (h.2.2.2 none).trans (by decide)

/-- C3: when the candidate at index n of the ordered search list is a
directory holding the (effective) tool file, and no earlier candidate yields
a probe hit (non-directories are skipped, files are absent), get_tool_path
returns exactly the path joining that normalized candidate with the tool
name; moreover the search result is already determined by the first n plus
one candidates — whatever follows them is never inspected. -/
theorem c3_first_match (os : OS) (basedir : Option String) (tool : String)
    (fix_ext required : Bool) (dp : Option (List String)) (sp : Bool)
    (n : Nat) (dn : String)
    (hget : (build_search_paths os basedir dp sp)[n]? = some dn)
    (hbefore : ∀ p ∈ (build_search_paths os basedir dp sp).take n,
      probe os (effective_tool os tool fix_ext) p = none)
    (hdir : os.isdir (os.normpath dn) = true)
    (hfile : os.isfile (os.join (os.normpath dn) (effective_tool os tool fix_ext)) = true) :
    get_tool_path os basedir tool fix_ext required dp sp =
      Except.ok (some (os.join (os.normpath dn) (effective_tool os tool fix_ext)))
    ∧ ∀ rest, findTool os (effective_tool os tool fix_ext)
        ((build_search_paths os basedir dp sp).take (n + 1) ++ rest) =
        some (os.join (os.normpath dn) (effective_tool os tool fix_ext)) := by
  have hhit := probe_hit os (effective_tool os tool fix_ext) dn hdir hfile
  have htake : (build_search_paths os basedir dp sp).take (n + 1) =
      (build_search_paths os basedir dp sp).take n ++ [dn] := by
    rw [List.take_succ, hget]
    rfl
  have h2 : ∀ rest, findTool os (effective_tool os tool fix_ext)
      ((build_search_paths os basedir dp sp).take (n + 1) ++ rest) =
      some (os.join (os.normpath dn) (effective_tool os tool fix_ext)) := by
    intro rest
    rw [htake, List.append_assoc,
      findTool_append_of_none os (effective_tool os tool fix_ext) _ _ hbefore]
    simp [findTool, hhit]
  refine ⟨?_, h2⟩
  have hfind : findTool os (effective_tool os tool fix_ext)
      (build_search_paths os basedir dp sp) =
      some (os.join (os.normpath dn) (effective_tool os tool fix_ext)) := by
    conv_lhs =>
      rw [← List.take_append_drop (n + 1) (build_search_paths os basedir dp sp)]
    exact h2 _
  simp [get_tool_path, hfind]

/-- Witness for C3: the tool lives in the second of two supplied candidate
directories; the search skips the first (not a directory) and returns the
joined path. -/
theorem c3_first_match_witness :
    get_tool_path secondHitOS none "mytool" false true (some ["d1", "d2"]) false =
      Except.ok (some "d2/mytool") := by
  have h := c3_first_match secondHitOS none "mytool" false true (some ["d1", "d2"]) false
    1 "d2" (by decide) (by decide) (by decide) (by decide)
  exact h.1.trans (by rfl)

/-- C5: the cache of a MyDefaultsReader memoizes group queries.  A cached
group (key present in _config_data) is returned as stored, with the state
unchanged and no subprocess invocation; any successful get_group_data leaves
the group cached with the returned value, so an immediately repeated call
returns the same value without invoking the tool (hence at most one
invocation across two consecutive calls); and a group whose tool output is
empty is memoized as absent, after which get_option_value returns absent for
every key with no further invocation. -/
theorem c5_cache_memoizes (tool : String → List String) (r : MyDefaultsReader)
    (group : String) :
    (∀ v, dictLookup group r.config_data = some v →
      get_group_data tool r group = Except.ok (v, r, 0))
    ∧ (∀ v r2 n, get_group_data tool r group = Except.ok (v, r2, n) →
        n ≤ 1 ∧ dictLookup group r2.config_data = some v
        ∧ get_group_data tool r2 group = Except.ok (v, r2, 0))
    ∧ (tool group = [] → dictLookup group r.config_data = none →
        truthyOptStr r.tool_path = true →
        get_group_data tool r group = Except.ok
          (none, { r with config_data := dictInsert r.config_data group none }, 1)
        ∧ ∀ key, get_option_value tool
            { r with config_data := dictInsert r.config_data group none } group key =
          Except.ok
            (none, { r with config_data := dictInsert r.config_data group none }, 0)) := by
  refine ⟨fun v hv => by simp [get_group_data, hv], fun v r2 n h => ?_, fun h0 hlook htp => ?_⟩
  · cases hlook : dictLookup group r.config_data with
    | some cached =>
      simp only [get_group_data, hlook, Except.ok.injEq, Prod.mk.injEq] at h
      obtain ⟨hv, hr, hn⟩ := h
      subst hv
      rw [← hr, ← hn]
      exact ⟨Nat.zero_le 1, hlook, by simp [get_group_data, hlook]⟩
    | none =>
      cases htp : truthyOptStr r.tool_path with
      | false => simp [get_group_data, hlook, _read_group_data, htp] at h
      | true =>
        obtain ⟨res, hres⟩ := parse_group_lines_isOk group (tool group)
        simp only [get_group_data, hlook, _read_group_data, htp, hres,
          Bool.not_true, Bool.false_eq_true, if_false] at h
        rw [Except.ok.injEq, Prod.mk.injEq, Prod.mk.injEq] at h
        obtain ⟨hv, hr, hn⟩ := h
        rw [← hr, ← hn]
        refine ⟨Nat.le_refl 1, ?_, ?_⟩
        · rw [← hv]
          exact dictLookup_dictInsert group _ r.config_data
        · have hk := dictLookup_dictInsert group
            (if res.length != 0 then some res else none) r.config_data
          rw [← hv]
          simp only [get_group_data]
          rw [hk]
  · have hread : get_group_data tool r group = Except.ok
        (none, { r with config_data := dictInsert r.config_data group none }, 1) := by
      simp [get_group_data, hlook, _read_group_data, htp, h0, parse_group_lines]
    refine ⟨hread, fun key => ?_⟩
    have hk := dictLookup_dictInsert group (none : Option OptionGroup) r.config_data
    simp only [get_option_value, get_group_data, hk]

/-- Witness for C5: a tool printing no lines, queried once, is memoized as
absent; the follow-up group query and option query hit the cache with zero
invocations. -/
theorem c5_cache_memoizes_witness :
    get_group_data emptyTool readerT "client" =
      Except.ok (none, { readerT with config_data := [("client", none)] }, 1)
    ∧ get_option_value emptyTool { readerT with config_data := [("client", none)] }
        "client" "user" =
      Except.ok (none, { readerT with config_data := [("client", none)] }, 0)
    ∧ get_group_data emptyTool { readerT with config_data := [("client", none)] }
        "client" =
      Except.ok (none, { readerT with config_data := [("client", none)] }, 0) := by
  have h := (c5_cache_memoizes emptyTool readerT "client").2.2 rfl rfl rfl
  exact ⟨h.1, h.2 "user",
    (c5_cache_memoizes emptyTool { readerT with config_data := [("client", none)] }
      "client").1 none rfl⟩

/-- C6: check_tool_version parses the first line of the version output for
the pattern Ver digit dot digit; with a parsed tool version (tm, tn) it
returns True exactly when the requested pair is lexicographically at most
(tm, tn) and False exactly when (tm, tn) is lexicographically smaller, and
with no match it raises UtilError naming the tool path. -/
theorem c6_version_compare (version_out : List String) (r : MyDefaultsReader)
    (mj mn : Int) (tm tn : Nat)
    (htp : truthyOptStr r.tool_path = true) :
    (searchVer (version_out.headD "").data = some (tm, tn) →
      (check_tool_version version_out r mj mn = Except.ok true ↔
        toLex (mj, mn) ≤ toLex ((tm : Int), (tn : Int)))
      ∧ (check_tool_version version_out r mj mn = Except.ok false ↔
        toLex ((tm : Int), (tn : Int)) < toLex (mj, mn)))
    ∧ (searchVer (version_out.headD "").data = none →
      check_tool_version version_out r mj mn =
        Except.error (PyErr.utilError
          ("Unable to determine tool version - " ++ r.tool_path.getD ""))) := by
  constructor
  · intro hs
    rw [List.headD_eq_head?_getD] at hs
    have hP : check_tool_version version_out r mj mn =
        if mj < (tm : Int) ∨ (mj = (tm : Int) ∧ mn ≤ (tn : Int)) then Except.ok true
        else Except.ok false := by
      simp [check_tool_version, htp, hs]
    constructor
    · rw [hP, Prod.Lex.le_iff]
      dsimp only
      split_ifs with hc
      · exact iff_of_true rfl hc
      · exact iff_of_false (by simp) hc
    · rw [hP, Prod.Lex.lt_iff]
      dsimp only
      split_ifs with hc
      · exact iff_of_false (by simp) (by omega)
      · exact iff_of_true rfl (by omega)
  · intro hs
    rw [List.headD_eq_head?_getD] at hs
    simp [check_tool_version, htp, hs]

/-- Witness for C6 on the synthetic outputs of the spec: version 5.7 satisfies a
5.6 requirement, version 5.5 does not, and output without a Ver token raises
the parse error. -/
theorem c6_version_compare_witness :
    check_tool_version ["my_print_defaults Ver 5.7 for Linux\n"] readerT 5 6 = Except.ok true
    ∧ check_tool_version ["my_print_defaults Ver 5.5 for Linux\n"] readerT 5 6 = Except.ok false
    ∧ check_tool_version ["no version token here\n"] readerT 5 6 =
      Except.error (PyErr.utilError
        "Unable to determine tool version - /usr/bin/my_print_defaults") := by
  refine ⟨?_, ?_, ?_⟩
  · exact ((c6_version_compare ["my_print_defaults Ver 5.7 for Linux\n"] readerT 5 6 5 7
      rfl).1 (by decide)).1.mpr ((Prod.Lex.le_iff _ _).mpr (Or.inr ⟨rfl, by norm_num⟩))
  · exact ((c6_version_compare ["my_print_defaults Ver 5.5 for Linux\n"] readerT 5 6 5 5
      rfl).1 (by decide)).2.mpr ((Prod.Lex.lt_iff _ _).mpr (Or.inr ⟨rfl, by norm_num⟩))
  · exact ((c6_version_compare ["no version token here\n"] readerT 5 6 0 0
      rfl).2 (by decide)).trans (by rfl)

/-- C1 evaluation: on the synthetic round-trip output of the spec the code maps
user to root and password to the empty string, but stores the bare flag under
the key flag followed by a newline — the trailing newline of the line is kept
in the key (the key equals value branch strips the value, the bare flag
branch strips nothing) — so looking up flag finds nothing. -/
theorem c1_round_trip_eval :
    get_group_data roundTripTool readerT "client" =
      Except.ok (some roundTripGroup,
        { readerT with config_data := [("client", some roundTripGroup)] }, 1)
    ∧ dictLookup "user" roundTripGroup = some (OptVal.str "root")
    ∧ dictLookup "password" roundTripGroup = some (OptVal.str "")
    ∧ dictLookup "flag" roundTripGroup = none
    ∧ dictLookup "flag\n" roundTripGroup = some OptVal.flag := by
  refine ⟨rfl, by decide, by decide, by decide, by decide⟩

/-- C2 counterexample: output consisting of the malformed line garbage does
not raise any error — get_group_data succeeds and silently records an entry:
the line minus its first two characters (rbage with its newline) mapped to
True. -/
theorem c2_counterexample :
    get_group_data garbageTool readerT "client" =
      Except.ok (some [("rbage\n", OptVal.flag)],
        { readerT with config_data := [("client", some [("rbage\n", OptVal.flag)])] },
        1) := rfl

/-- C2 amended: a line without an equals sign after its first two characters
(such as garbage) is parsed as a bare flag, mapping the line minus its first
two characters to True; group-data reading with a discovered tool path never
raises a parse error, whatever the tool output. -/
theorem c2_amended (group line : String) (tool : String → List String)
    (r : MyDefaultsReader) :
    ('=' ∉ (line.drop 2).data →
      parse_group_line group line = Except.ok (line.drop 2, OptVal.flag))
    ∧ (truthyOptStr r.tool_path = true → (get_group_data tool r group).isOk = true) := by
  constructor
  · intro h
    have hcore := pySplit1Core_not_mem '=' (line.drop 2).data h
    unfold parse_group_line pySplit1
    rw [hcore]
    rfl
  · intro htp
    cases hlook : dictLookup group r.config_data with
    | some cached => simp [get_group_data, hlook, Except.isOk, Except.toBool]
    | none =>
      obtain ⟨res, hres⟩ := parse_group_lines_isOk group (tool group)
      simp [get_group_data, hlook, _read_group_data, htp, hres, Except.isOk, Except.toBool]

/-- Witness for C2 amended: the garbage line parses as a bare flag and the
group query on the garbage-printing tool succeeds. -/
theorem c2_amended_witness :
    parse_group_line "client" "garbage\n" = Except.ok ("rbage\n", OptVal.flag)
    ∧ (get_group_data garbageTool readerT "client").isOk = true := by
  have h := c2_amended "client" "garbage\n" garbageTool readerT
  exact ⟨(h.1 (by decide)).trans rfl, h.2 rfl⟩
